import Mathlib

/-!
Verification development for the Commits-Summary-Tool repository.

The repository consists of two Python scripts:
  * `gemini_cli.py`  — a minimal REST client for the Gemini generateContent
    endpoint with a single model-discovery fallback (`cmd_text`);
  * `summarize_ai.py` — an SDK-based summarizer dispatching on a provider
    argument (`main`, `get_summary_prompt`, `summarize_with_openai`,
    `summarize_with_gemini`).

The shallow embedding below translates these scripts into pure Lean
functions.  Effects are made explicit:
  * the environment is an association list of variables;
  * the file system is a function from paths to `Option (Option String)`
    (`none` = the path does not exist, `some none` = it exists but reading
    raises, `some (some c)` = reading yields `c`);
  * the network is a function from requests to responses, and each run
    records the list of requests it issued (its trace);
  * Python exceptions become explicit error values.  An uncaught exception
    makes the process exit with code 1 and a traceback on stderr; a bare
    `sys.exit(2)` exits with code 2.
Strings are modelled with Lean `String` (a list of characters); the Python
string primitives used by the scripts (`strip`, `lower`, `in`, slicing,
`join`) are re-implemented structurally below so that every definition
evaluates by kernel reduction.
-/

/-- Minimal JSON value model, covering what the scripts consume. -/
inductive Json where
  | null
  | bool (b : Bool)
  | num (n : Int)
  | str (s : String)
  | arr (elems : List Json)
  | obj (fields : List (String × Json))

/-- First binding of a key in a JSON object field list. -/
def lookupField : List (String × Json) → String → Option Json
  | [], _ => none
  | (k, v) :: rest, key => if k = key then some v else lookupField rest key

/-- Python `data[key]`: `none` models the raised `KeyError`/`TypeError`. -/
def Json.index (j : Json) (key : String) : Option Json :=
  match j with
  | .obj fs => lookupField fs key
  | _ => none

/-- Python `data.get(key, default)`: `none` models the `AttributeError`
raised when the receiver is not a dict. -/
def Json.getD (j : Json) (key : String) (d : Json) : Option Json :=
  match j with
  | .obj fs => some ((lookupField fs key).getD d)
  | _ => none

/-- Python truthiness of a JSON value. -/
def pyTruthy : Json → Bool
  | .null => false
  | .bool b => b
  | .num n => n != 0
  | .str s => s != ""
  | .arr xs => !xs.isEmpty
  | .obj fs => !fs.isEmpty

/-- Python `str()` of a JSON value; only the string case is exercised by
well-typed API responses (container renderings are approximated). -/
def pyStr : Json → String
  | .str s => s
  | .num n => toString n
  | .bool b => if b then "True" else "False"
  | .null => "None"
  | .arr _ => "[...]"
  | .obj _ => "{}"

/-- Does `hay` start with `needle` (character lists)? -/
def listStartsWith : List Char → List Char → Bool
  | _, [] => true
  | [], _ :: _ => false
  | a :: as, b :: bs => a = b && listStartsWith as bs

/-- Does `hay` contain `needle` as a contiguous sublist? -/
def listContainsSub : List Char → List Char → Bool
  | [], needle => needle.isEmpty
  | a :: as, needle => listStartsWith (a :: as) needle || listContainsSub as needle

/-- Python substring test `needle in hay` for strings. -/
def strContainsSub (hay needle : String) : Bool :=
  listContainsSub hay.data needle.data

/-- Python `needle in container` for JSON values: substring test on
strings, element equality on lists, key membership on objects; other
receivers raise `TypeError`. -/
def pyIn (needle : String) : Json → Except String Bool
  | .str t => .ok (strContainsSub t needle)
  | .arr xs => .ok (xs.any fun x => match x with | .str u => u = needle | _ => false)
  | .obj fs => .ok (fs.any fun kv => kv.1 = needle)
  | _ => .error "TypeError: argument is not iterable"

/-- Python iteration `for x in j`: lists yield elements, strings yield
one-character strings, dicts yield their keys; other values raise. -/
def pyIterate : Json → Except String (List Json)
  | .arr xs => .ok xs
  | .str s => .ok (s.data.map fun c => Json.str (String.mk [c]))
  | .obj fs => .ok (fs.map fun kv => Json.str kv.1)
  | _ => .error "TypeError: object is not iterable"

/-- Characters stripped by Python `str.strip()`. -/
def isPyWhitespace (c : Char) : Bool :=
  c = ' ' || c = '\t' || c = '\n' || c = '\r' || c = '\x0b' || c = '\x0c'

/-- Drop leading whitespace characters. -/
def dropWs : List Char → List Char
  | [] => []
  | c :: cs => if isPyWhitespace c then dropWs cs else c :: cs

/-- Python `s.strip()`. -/
def pyStrip (s : String) : String :=
  String.mk ((dropWs ((dropWs s.data).reverse)).reverse)

/-- Python `s.lower()`. -/
def pyLower (s : String) : String :=
  String.mk (s.data.map Char.toLower)

/-- Python `s[:200]` (as used on `r.text`). -/
def pySlice200 (s : String) : String :=
  String.mk (s.data.take 200)

/-- Python `"".join(texts)`. -/
def pyJoin (l : List String) : String :=
  l.foldl (fun a b => a ++ b) ""

/-- Python `a or b` on strings (first operand when truthy, else second). -/
def pyOrS (a b : String) : String :=
  if a = "" then b else a

/-- First truthy value of a chain of `os.getenv` results, modelling
`a or b or ...` where each operand is `None` or a string. -/
def firstTruthy : List (Option String) → Option String
  | [] => none
  | none :: rest => firstTruthy rest
  | some s :: rest => if s = "" then firstTruthy rest else some s

/-- `os.getenv(k)`: first binding of `k` in the environment list. -/
def lookupStr : List (String × String) → String → Option String
  | [], _ => none
  | (k, v) :: rest, key => if k = key then some v else lookupStr rest key

/-- `os.getenv(k, d)`. -/
def getenvD (env : List (String × String)) (k d : String) : String :=
  (lookupStr env k).getD d

/-- Environment and file system shared by both scripts. -/
structure FsEnv where
  env : List (String × String)
  scriptDir : String
  files : String → Option (Option String)

/-- `os.path.isabs` on POSIX. -/
def isAbsPath (p : String) : Bool :=
  listStartsWith p.data "/".data

/-- Resolution of `SUMMARY_PROMPT_FILE` relative to the script directory
(`os.path.join(script_dir, prompt_file)` when the path is not absolute). -/
def resolvePromptFile (scriptDir pf : String) : String :=
  if isAbsPath pf then pf else scriptDir ++ "/" ++ pf

/-- Stderr warning printed when the prompt file exists but reading raises
(quoting and exception detail of the Python f-string omitted). -/
def readWarn (path : String) : String :=
  "Warning: Could not read SUMMARY_PROMPT_FILE " ++ path

/-- Built-in "classic" preface of `gemini_cli.cmd_text`. -/
def classicPreface : String :=
  "You are an expert technical writer. Produce a clean Markdown report with this exact structure:\n" ++
  "# Git Activity Report\n\n" ++
  "For each repository present in the input, include a section in this format:\n" ++
  "## <RepositoryName>\n\n" ++
  "### Recent Commits (Last N Days):\n" ++
  "*   `<short_hash>` <commit_subject>\n" ++
  "(one bullet per commit, keep subjects as-is; do not add extra commentary)\n\n" ++
  "### Notable Uncommitted Changes:\n" ++
  "*   None reported.  (if there are no uncommitted changes)\n" ++
  "or list a few bullets summarizing real changes only.\n\n" ++
  "Do not add generic text, disclaimers, or introductions beyond the above headings."

/-- Built-in non-classic preface of `gemini_cli.cmd_text`. -/
def compactPreface : String :=
  "Summarize the following git activity into a concise, well-structured Markdown report. " ++
  "Group by repository, show key commits (bulleted), and note notable uncommitted changes. " ++
  "Keep it action-focused and avoid boilerplate."

/-- Default prompt of `summarize_ai.get_summary_prompt`. -/
def defaultPrompt : String :=
  "Summarize the following git activity for a concise daily report. " ++
  "Group by repository, highlight meaningful changes, and skip noise.\n\n"

/-- The prompt-file step shared by both scripts: result of trying to read
`SUMMARY_PROMPT_FILE` (trimmed content, possibly empty) plus any warning
printed to stderr. -/
def promptFileStep (fe : FsEnv) : Option String × List String :=
  let pf := pyStrip (getenvD fe.env "SUMMARY_PROMPT_FILE" "")
  if pf = "" then (none, [])
  else
    let path := resolvePromptFile fe.scriptDir pf
    match fe.files path with
    | none => (none, [])
    | some none => (none, [readWarn path])
    | some (some c) => (some (pyStrip c), [])

/-- `gemini_cli.cmd_text` lines 38-83: full prompt construction; returns
the prompt and the warnings printed while building it. -/
def buildFullPromptCli (fe : FsEnv) (promptText : String) : String × List String :=
  let step := promptFileStep fe
  let custom : String :=
    match step.1 with
    | some c => if c = "" then pyStrip (getenvD fe.env "SUMMARY_PROMPT" "") else c
    | none => pyStrip (getenvD fe.env "SUMMARY_PROMPT" "")
  if custom = "" then
    let style := pyLower ((firstTruthy
      [lookupStr fe.env "PROMPT_STYLE", lookupStr fe.env "SUMMARY_STYLE"]).getD "classic")
    if style = "classic" then (classicPreface ++ "\n\n" ++ promptText, step.2)
    else (compactPreface ++ "\n\n" ++ promptText, step.2)
  else (custom ++ "\n\n" ++ promptText, step.2)

/-- `summarize_ai.get_summary_prompt`: prompt construction with early
returns; returns the prompt and the warnings printed while building it. -/
def get_summary_prompt (fe : FsEnv) (text : String) : String × List String :=
  let step := promptFileStep fe
  match step.1 with
  | some c =>
    if c = "" then
      let cp := pyStrip (getenvD fe.env "SUMMARY_PROMPT" "")
      if cp = "" then (defaultPrompt ++ text, step.2)
      else (cp ++ "\n\n" ++ text, step.2)
    else (c ++ "\n\n" ++ text, step.2)
  | none =>
    let cp := pyStrip (getenvD fe.env "SUMMARY_PROMPT" "")
    if cp = "" then (defaultPrompt ++ text, step.2)
    else (cp ++ "\n\n" ++ text, step.2)

/-- Following the spec's words, for the refinement claim C5: the file
override in effect, if any — `SUMMARY_PROMPT_FILE` names a readable file
with non-empty trimmed content. -/
def specFilePrompt (fe : FsEnv) : Option String :=
  match (promptFileStep fe).1 with
  | some c => if c = "" then none else some c
  | none => none

/-- Following the spec's words, for the refinement claim C5: the
`SUMMARY_PROMPT` override in effect, if any. -/
def specEnvPrompt (fe : FsEnv) : Option String :=
  let s := pyStrip (getenvD fe.env "SUMMARY_PROMPT" "")
  if s = "" then none else some s

/-- The style-selected built-in preface of `gemini_cli.cmd_text`. -/
def stylePreface (fe : FsEnv) : String :=
  if pyLower ((firstTruthy
      [lookupStr fe.env "PROMPT_STYLE", lookupStr fe.env "SUMMARY_STYLE"]).getD "classic")
      = "classic"
  then classicPreface else compactPreface

/-- An outbound HTTP request as issued by `requests.post`/`requests.get`. -/
structure Request where
  isPost : Bool
  url : String
  timeoutSec : Nat
  payload : Option Json

/-- An HTTP response: status, raw text, and the result of `r.json()`
(`none` models the exception raised on an invalid JSON body). -/
structure HttpResp where
  status : Nat
  text : String
  jsonBody : Option Json

/-- Result of issuing a request: the library call itself may raise
(connection error, timeout), or deliver a response. -/
inductive NetResult where
  | raised (msg : String)
  | ok (resp : HttpResp)

/-- The world a `gemini_cli.py` run interacts with. -/
structure World where
  fs : FsEnv
  stdin : String
  net : Request → NetResult

/-- Parsed command-line arguments of the `text` subcommand. -/
structure Args where
  model : String
  input : String

/-- Observable outcome of a `cmd_text` run: exit code, stdout, the
stderr lines in order, the requests issued in order, and whether the
process died on an uncaught exception. -/
structure RunResult where
  exitCode : Nat
  stdout : String
  stderr : List String
  trace : List Request
  crashed : Bool

/-- `gemini_cli.ensure_api_key` key selection:
`os.getenv("GEMINI_API_KEY") or os.getenv("GOOGLE_API_KEY")`; `none`
means the function prints its message and exits with code 2. -/
def ensure_api_key (env : List (String × String)) : Option String :=
  firstTruthy [lookupStr env "GEMINI_API_KEY", lookupStr env "GOOGLE_API_KEY"]

/-- Request payload of a generateContent call. -/
def genPayload (fullPrompt : String) : Json :=
  .obj [("contents", .arr [.obj [("role", .str "user"),
    ("parts", .arr [.obj [("text", .str fullPrompt)]])]])]

/-- The v1 generateContent request of `call_model_v1` (timeout 60). -/
def genReqV1 (apiKey fullPrompt m : String) : Request :=
  ⟨true,
   "https://generativelanguage.googleapis.com/v1/models/" ++ m ++
     ":generateContent?key=" ++ apiKey,
   60, some (genPayload fullPrompt)⟩

/-- The v1beta generateContent request of `call_model_v1beta` (timeout 60). -/
def genReqV1beta (apiKey fullPrompt fullModelName : String) : Request :=
  ⟨true,
   "https://generativelanguage.googleapis.com/v1beta/" ++ fullModelName ++
     ":generateContent?key=" ++ apiKey,
   60, some (genPayload fullPrompt)⟩

/-- The v1beta model-listing request (timeout 30). -/
def listModelsReq (apiKey : String) : Request :=
  ⟨false,
   "https://generativelanguage.googleapis.com/v1beta/models?key=" ++ apiKey,
   30, none⟩

/-- Per-part text extraction `p.get("text", "")` inside the list
comprehension: a non-dict part raises `AttributeError`, a non-string
text value makes the subsequent `join` raise `TypeError` (both `none`). -/
def partText (p : Json) : Option String :=
  match p with
  | .obj fs =>
    match lookupField fs "text" with
    | none => some ""
    | some (.str s) => some s
    | some _ => none
  | _ => none

/-- Navigation `data["candidates"][0]["content"]["parts"]` followed by
iteration over the parts; `none` models any exception caught by the
surrounding `try`. -/
def extractParts (data : Json) : Option (List Json) :=
  match Json.index data "candidates" with
  | some (Json.arr (c :: _)) =>
    match Json.index c "content" with
    | some content =>
      match Json.index content "parts" with
      | some partsJ =>
        match pyIterate partsJ with
        | .ok ps => some ps
        | .error _ => none
      | none => none
    | none => none
  | _ => none

/-- The list comprehension `[p.get("text", "") for p in parts]`:
`none` models an exception raised while building or joining it. -/
def mapTexts : List Json → Option (List String)
  | [] => some []
  | p :: ps =>
    match partText p, mapTexts ps with
    | some t, some ts => some (t :: ts)
    | _, _ => none

/-- Body handling of `call_model_v1`/`call_model_v1beta` on a 200
response: extract the parts, join their text fields, strip the result;
any exception is caught and reported as a parse error. -/
def parseGenBody (data : Json) : Except String String :=
  match extractParts data with
  | none => .error "Parse error"
  | some ps =>
    match mapTexts ps with
    | none => .error "Parse error"
    | some texts => .ok (pyStrip (pyJoin texts))

/-- Outcome of one generateContent call. -/
inductive CallResult where
  | crash (msg : String)
  | ok (text : String)
  | err (msg : String)

/-- Shared body of `call_model_v1` and `call_model_v1beta`: issue the
request; non-200 statuses become `(None, "HTTP ...")`; `r.json()` on an
invalid body raises (uncaught); parse errors become `(None, "Parse...")`. -/
def callModelWith (net : Request → NetResult) (req : Request) : CallResult :=
  match net req with
  | .raised msg => .crash msg
  | .ok r =>
    if r.status = 200 then
      match r.jsonBody with
      | none => .crash "JSONDecodeError: invalid response body"
      | some data =>
        match parseGenBody data with
        | .ok t => .ok t
        | .error e => .err e
    else .err ("HTTP " ++ Nat.repr r.status ++ ": " ++ pySlice200 r.text)

/-- The model-selection loop of `cmd_text` lines 136-142: first listed
model whose `supportedGenerationMethods` contains `"generateContent"`
(Python `in`) and whose `name` contains `"gemini-1.5"` or `"flash"`,
with Python short-circuit evaluation; `.error` models an uncaught
exception inside the loop. -/
def pickPreferred : List Json → Except String (Option Json)
  | [] => .ok none
  | m :: rest =>
    match m with
    | .obj fs =>
      let nameJ := (lookupField fs "name").getD (.str "")
      let methodsJ := (lookupField fs "supportedGenerationMethods").getD (.arr [])
      match pyIn "generateContent" methodsJ with
      | .error e => .error e
      | .ok false => pickPreferred rest
      | .ok true =>
        match pyIn "gemini-1.5" nameJ with
        | .error e => .error e
        | .ok true => .ok (some nameJ)
        | .ok false =>
          match pyIn "flash" nameJ with
          | .error e => .error e
          | .ok true => .ok (some nameJ)
          | .ok false => pickPreferred rest
    | _ => .error "AttributeError: object has no attribute get"

/-- Stderr line of an uncaught Python exception. -/
def tracebackLine (msg : String) : String :=
  "Traceback (most recent call last): " ++ msg

/-- The stderr line of `ensure_api_key` when no key is set. -/
def missingKeyMsg : String :=
  "GEMINI_API_KEY (or GOOGLE_API_KEY) is required"

/-- `gemini_cli.cmd_text`: the whole run, from key check and prompt
construction through the primary v1 call, the v1beta model-listing
fallback, and the single retry. -/
def cmd_text (w : World) (args : Args) : RunResult :=
  match ensure_api_key w.fs.env with
  | none => ⟨2, "", [missingKeyMsg], [], false⟩
  | some apiKey =>
    let modelName := pyOrS args.model "gemini-1.5-flash"
    let promptText := if args.input = "-" then w.stdin else args.input
    let bp := buildFullPromptCli w.fs promptText
    let req1 := genReqV1 apiKey bp.1 modelName
    match callModelWith w.net req1 with
    | .crash msg => ⟨1, "", bp.2 ++ [tracebackLine msg], [req1], true⟩
    | .ok text => ⟨0, text, bp.2, [req1], false⟩
    | .err err =>
      let lreq := listModelsReq apiKey
      match w.net lreq with
      | .raised msg => ⟨1, "", bp.2 ++ [tracebackLine msg], [req1, lreq], true⟩
      | .ok lr =>
        if lr.status = 200 then
          match lr.jsonBody with
          | none =>
            ⟨1, "", bp.2 ++ [tracebackLine "JSONDecodeError: invalid response body"],
             [req1, lreq], true⟩
          | some body =>
            match Json.getD body "models" (.arr []) with
            | none =>
              ⟨1, "", bp.2 ++ [tracebackLine "AttributeError: object has no attribute get"],
               [req1, lreq], true⟩
            | some modelsJ =>
              match pyIterate modelsJ with
              | .error e => ⟨1, "", bp.2 ++ [tracebackLine e], [req1, lreq], true⟩
              | .ok models =>
                match pickPreferred models with
                | .error e => ⟨1, "", bp.2 ++ [tracebackLine e], [req1, lreq], true⟩
                | .ok none =>
                  ⟨1, "",
                   bp.2 ++ ["Gemini REST call failed: " ++ err ++ " | no suitable model found"],
                   [req1, lreq], false⟩
                | .ok (some nameJ) =>
                  if pyTruthy nameJ then
                    let req3 := genReqV1beta apiKey bp.1 (pyStr nameJ)
                    match callModelWith w.net req3 with
                    | .crash msg =>
                      ⟨1, "", bp.2 ++ [tracebackLine msg], [req1, lreq, req3], true⟩
                    | .ok text => ⟨0, text, bp.2, [req1, lreq, req3], false⟩
                    | .err err2 =>
                      ⟨1, "",
                       bp.2 ++ ["Gemini REST call failed: " ++ err ++ " | " ++ err2],
                       [req1, lreq, req3], false⟩
                  else
                    ⟨1, "",
                     bp.2 ++ ["Gemini REST call failed: " ++ err ++ " | no suitable model found"],
                     [req1, lreq], false⟩
        else
          ⟨1, "",
           bp.2 ++ ["Gemini REST call failed: " ++ err ++ " | list models HTTP " ++
             Nat.repr lr.status],
           [req1, lreq], false⟩

/-- A Gemini SDK response object as inspected by `summarize_with_gemini`:
its Python truthiness and the value of `getattr(response, "text", None)`. -/
structure GemResponse where
  truthy : Bool
  text : Option String

/-- The world a `summarize_ai.py` run interacts with: environment, file
system, stdin, and the two provider SDKs as oracles (each may raise). -/
structure SdkWorld where
  fs : FsEnv
  stdin : String
  openaiResult : String → List (String × String) → Except String (Option String)
  geminiResult : String → String → Except String GemResponse

/-- The fixed system message of `summarize_with_openai`. -/
def openaiSystemMessage : String :=
  "You are an expert at concise software progress summaries."

/-- `summarize_ai.summarize_with_openai`: key check, prompt construction,
message assembly, one SDK call, `content.strip()`.  Returns the result
(`.error` models a raised exception), the warnings printed to stderr, and
the provider calls made (provider, prompt). -/
def summarize_with_openai (w : SdkWorld) (text model : String) :
    Except String String × List String × List (String × String) :=
  let apiKey := (lookupStr w.fs.env "OPENAI_API_KEY").getD ""
  if apiKey = "" then
    (.error "OPENAI_API_KEY is required for provider=openai", [], [])
  else
    let gp := get_summary_prompt w.fs text
    let messages :=
      if pyStrip (getenvD w.fs.env "SUMMARY_PROMPT" "") = "" then
        [("system", openaiSystemMessage), ("user", gp.1)]
      else
        [("user", gp.1)]
    match w.openaiResult model messages with
    | .error e => (.error e, gp.2, [("openai", gp.1)])
    | .ok none => (.error "AttributeError: NoneType has no attribute strip", gp.2,
        [("openai", gp.1)])
    | .ok (some c) => (.ok (pyStrip c), gp.2, [("openai", gp.1)])

/-- `summarize_ai.summarize_with_gemini`: key check, prompt construction,
one SDK call, and the empty-response guard
`if not response or not getattr(response, "text", None)`. -/
def summarize_with_gemini (w : SdkWorld) (text model : String) :
    Except String String × List String × List (String × String) :=
  let apiKey := (firstTruthy
    [lookupStr w.fs.env "GEMINI_API_KEY", lookupStr w.fs.env "GOOGLE_API_KEY"]).getD ""
  if apiKey = "" then
    (.error "GEMINI_API_KEY (or GOOGLE_API_KEY) is required for provider=gemini", [], [])
  else
    let modelName := pyOrS model "gemini-1.5-flash"
    let gp := get_summary_prompt w.fs text
    match w.geminiResult modelName gp.1 with
    | .error e => (.error e, gp.2, [("gemini", gp.1)])
    | .ok resp =>
      if resp.truthy = false ∨ resp.text.getD "" = "" then
        (.error "Gemini returned empty response", gp.2, [("gemini", gp.1)])
      else
        (.ok (pyStrip (resp.text.getD "")), gp.2, [("gemini", gp.1)])

/-- Observable outcome of a `summarize_ai.main` run. -/
structure SdkRunResult where
  exitCode : Nat
  stdout : String
  stderr : List String
  calls : List (String × String)

/-- `summarize_ai.main`: provider dispatch.  `print` appends a newline;
an uncaught `RuntimeError` (or other exception) exits with code 1 and a
traceback; `raise SystemExit(msg)` prints the message and exits 1. -/
def summarizeAiMain (w : SdkWorld) (providerArg modelArg : String) : SdkRunResult :=
  let text := w.stdin
  let provider := pyLower (pyOrS providerArg "")
  if provider = "none" ∨ provider = "off" ∨ provider = "disabled" then
    ⟨0, text ++ "\n", [], []⟩
  else if provider = "openai" then
    let model := pyOrS modelArg "gpt-4o-mini"
    match summarize_with_openai w text model with
    | (.ok s, ws, cs) => ⟨0, s ++ "\n", ws, cs⟩
    | (.error e, ws, cs) => ⟨1, "", ws ++ [tracebackLine ("RuntimeError: " ++ e)], cs⟩
  else if provider = "gemini" then
    let model := pyOrS modelArg "gemini-1.5-flash-latest"
    match summarize_with_gemini w text model with
    | (.ok s, ws, cs) => ⟨0, s ++ "\n", ws, cs⟩
    | (.error e, ws, cs) => ⟨1, "", ws ++ [tracebackLine ("RuntimeError: " ++ e)], cs⟩
  else
    ⟨1, "", ["Unknown provider: " ++ provider ++ ". Use openai|gemini|none"], []⟩

/-- Model entries that are well-typed per the API schema: a JSON object
whose `name` (if present) is a string and whose
`supportedGenerationMethods` (if present) is a list. -/
def wfModel (m : Json) : Bool :=
  match m with
  | .obj fs =>
    (match (lookupField fs "supportedGenerationMethods").getD (.arr []) with
     | .arr _ => true
     | _ => false) &&
    (match (lookupField fs "name").getD (.str "") with
     | .str _ => true
     | _ => false)
  | _ => false

/-- Following the spec's words, for the refinement claim C3: a model is
suitable when its capability list contains `"generateContent"` and its
name contains the version hint `"gemini-1.5"` or `"flash"`. -/
def specSuitable (m : Json) : Bool :=
  match m with
  | .obj fs =>
    (match (lookupField fs "supportedGenerationMethods").getD (.arr []) with
     | .arr ms => ms.any fun x => match x with | .str u => u = "generateContent" | _ => false
     | _ => false) &&
    (match (lookupField fs "name").getD (.str "") with
     | .str nm => strContainsSub nm "gemini-1.5" || strContainsSub nm "flash"
     | _ => false)
  | _ => false

/-- The name string of a well-typed model entry. -/
def specModelName (m : Json) : String :=
  match m with
  | .obj fs =>
    match (lookupField fs "name").getD (.str "") with
    | .str nm => nm
    | _ => ""
  | _ => ""

/-- Arguments `--model` unset (empty) and `--input -` (read stdin). -/
def args0 : Args := ⟨"", "-"⟩

/-- Environment with a Gemini key and a short `SUMMARY_PROMPT` override. -/
def fe0 : FsEnv := ⟨[("SUMMARY_PROMPT", "P"), ("GEMINI_API_KEY", "K")], "/app", fun _ => none⟩

/-- A well-typed model entry for `gemini-1.5-flash`. -/
def modelEntry0 : Json :=
  .obj [("name", .str "models/gemini-1.5-flash"),
        ("supportedGenerationMethods", .arr [.str "generateContent"])]

/-- Model-listing body with exactly `modelEntry0`. -/
def listBody0 : Json := .obj [("models", .arr [modelEntry0])]

/-- A 200 generateContent body whose single part has text `"OK"`. -/
def genBodyOK : Json :=
  .obj [("candidates", .arr [.obj [("content",
    .obj [("parts", .arr [.obj [("text", .str "OK")]])])]])]

/-- Network where the primary v1 call fails with HTTP 503, the listing
succeeds with `listBody0`, and the v1beta retry succeeds with `"OK"`. -/
def netFallback : Request → NetResult := fun r =>
  if r.timeoutSec = 30 then .ok ⟨200, "", some listBody0⟩
  else if strContainsSub r.url "/v1beta/" then .ok ⟨200, "", some genBodyOK⟩
  else .ok ⟨503, "boom", none⟩

/-- World exercising the full fallback path. -/
def wFallback : World := ⟨fe0, "T", netFallback⟩

/-- World with an empty environment: no API key at all. -/
def wNoKey : World := ⟨⟨[], "/app", fun _ => none⟩, "T", fun _ => .raised "unused"⟩

/-- A 200 generateContent body whose single part text has flanking spaces. -/
def genBodySpaces : Json :=
  .obj [("candidates", .arr [.obj [("content",
    .obj [("parts", .arr [.obj [("text", .str " a ")]])])]])]

/-- Network answering every request with the flanking-spaces body. -/
def netSpaces : Request → NetResult := fun _ => .ok ⟨200, "", some genBodySpaces⟩

/-- SDK world with an empty environment: no provider key at all. -/
def wSdkNoKey : SdkWorld :=
  ⟨⟨[], "/app", fun _ => none⟩, "T", fun _ _ => .error "unused", fun _ _ => .error "unused"⟩

/-- SDK world with a Gemini key whose SDK yields a truthy response whose
`text` attribute is the empty string. -/
def wSdkGemEmpty : SdkWorld :=
  ⟨⟨[("GEMINI_API_KEY", "K")], "/app", fun _ => none⟩, "T",
   fun _ _ => .error "unused", fun _ _ => .ok ⟨true, some ""⟩⟩

/-- A file system holding one prompt file `/p/f` with content `"F"`. -/
def fsWithPromptFile : String → Option (Option String) := fun p =>
  if p = "/p/f" then some (some "F") else none

/-- Environment selecting the prompt file `/p/f` and also setting
`SUMMARY_PROMPT`, to exercise the override precedence. -/
def fePrec : FsEnv :=
  ⟨[("SUMMARY_PROMPT_FILE", "/p/f"), ("SUMMARY_PROMPT", "E")], "/app", fsWithPromptFile⟩

/-- Network where the primary v1 call fails with HTTP 503 and the model
listing succeeds but returns an empty models list. -/
def netNoMatch : Request → NetResult := fun r =>
  if r.timeoutSec = 30 then .ok ⟨200, "", some (.obj [("models", .arr [])])⟩
  else .ok ⟨503, "boom", none⟩

/-- World exercising the no-suitable-model branch of the fallback. -/
def wNoMatch : World := ⟨fe0, "T", netNoMatch⟩

/-- A non-empty needle found as a substring forces a non-empty haystack. -/
theorem strContainsSub_hay_ne_empty (hay needle : String)
    (h : strContainsSub hay needle = true) (hne : needle ≠ "") : hay ≠ "" := by
  obtain ⟨hd⟩ := hay
  obtain ⟨nd⟩ := needle
  intro hh
  have hnil : hd = [] := by simpa using congrArg String.data hh
  subst hnil
  simp only [strContainsSub, listContainsSub, List.isEmpty_iff] at h
  exact hne (by simpa using congrArg String.mk h)

/-- Destructor for well-typed model entries. -/
theorem wfModel_destruct (m : Json) (h : wfModel m = true) :
    ∃ fs ms nm, m = .obj fs ∧
      (lookupField fs "supportedGenerationMethods").getD (Json.arr []) = .arr ms ∧
      (lookupField fs "name").getD (.str "") = .str nm := by
  rcases m with _ | b | n | s | elems | fs <;> simp [wfModel] at h
  obtain ⟨h1, h2⟩ := h
  rcases hA : (lookupField fs "supportedGenerationMethods").getD (Json.arr []) with
    _ | _ | _ | _ | ms | _ <;> rw [hA] at h1 <;> simp at h1
  rcases hB : (lookupField fs "name").getD (Json.str "") with
    _ | _ | _ | nm | _ | _ <;> rw [hB] at h2 <;> simp at h2
  exact ⟨fs, ms, nm, rfl, hA, hB⟩

/-- The selection loop of `cmd_text` computes the first list entry, in
list order, satisfying the spec's suitability condition (on well-typed
model lists), and yields its name. -/
theorem pickPreferred_eq_find (models : List Json)
    (hwf : ∀ m ∈ models, wfModel m = true) :
    pickPreferred models =
      .ok ((models.find? specSuitable).map fun m => Json.str (specModelName m)) := by
  induction models with
  | nil => rfl
  | cons m rest ih =>
    have hm : wfModel m = true := hwf m (List.mem_cons_self m rest)
    have ih2 := ih fun x hx => hwf x (List.mem_cons_of_mem m hx)
    obtain ⟨fs, ms, nm, rfl, hA, hB⟩ := wfModel_destruct m hm
    have hsuit : specSuitable (Json.obj fs) =
        ((ms.any fun x => match x with | .str u => u = "generateContent" | _ => false) &&
         (strContainsSub nm "gemini-1.5" || strContainsSub nm "flash")) := by
      simp [specSuitable, hA, hB]
    rcases han : (ms.any fun x => match x with | .str u => u = "generateContent" | _ => false) with _ | _
    · have hns : specSuitable (Json.obj fs) = false := by simp [hsuit, han]
      simp only [pickPreferred, hA, hB, pyIn, han]
      rw [List.find?_cons_of_neg _ (by simp [hns]), ih2]
    · rcases hb1 : strContainsSub nm "gemini-1.5" with _ | _
      · rcases hb2 : strContainsSub nm "flash" with _ | _
        · have hns : specSuitable (Json.obj fs) = false := by simp [hsuit, han, hb1, hb2]
          simp only [pickPreferred, hA, hB, pyIn, han, hb1, hb2]
          rw [List.find?_cons_of_neg _ (by simp [hns]), ih2]
        · have hps : specSuitable (Json.obj fs) = true := by simp [hsuit, han, hb1, hb2]
          simp only [pickPreferred, hA, hB, pyIn, han, hb1, hb2]
          rw [List.find?_cons_of_pos _ (by simp [hps])]
          simp [specModelName, hB]
      · have hps : specSuitable (Json.obj fs) = true := by simp [hsuit, han, hb1]
        simp only [pickPreferred, hA, hB, pyIn, han, hb1]
        rw [List.find?_cons_of_pos _ (by simp [hps])]
        simp [specModelName, hB]

/-- A suitable well-typed model has a non-empty name. -/
theorem specSuitable_name_ne (m : Json) (hwf : wfModel m = true)
    (h : specSuitable m = true) : specModelName m ≠ "" := by
  obtain ⟨fs, ms, nm, rfl, hA, hB⟩ := wfModel_destruct m hwf
  simp only [specSuitable, hA, hB, Bool.and_eq_true, Bool.or_eq_true] at h
  have hname : specModelName (Json.obj fs) = nm := by simp [specModelName, hB]
  rw [hname]
  rcases h.2 with hb | hb
  · exact strContainsSub_hay_ne_empty nm "gemini-1.5" hb (by decide)
  · exact strContainsSub_hay_ne_empty nm "flash" hb (by decide)

/-- C3: in `cmd_text`, when the primary generateContent call fails, the
program fetches the model list and, for every returned (well-typed) list,
selects the first entry in list order whose `supportedGenerationMethods`
contains `"generateContent"` and whose name contains `"gemini-1.5"` or
`"flash"`, then retries exactly once with that model's name: the run's
request trace is exactly the primary call, the listing call, and one
v1beta call for the selected name. -/
theorem c3_fallback_selects_first_suitable_and_retries_once
    (w : World) (args : Args) (k err lt : String) (body modelsJ mdl : Json)
    (models : List Json)
    (hkey : ensure_api_key w.fs.env = some k)
    (hprim : callModelWith w.net
      (genReqV1 k (buildFullPromptCli w.fs
        (if args.input = "-" then w.stdin else args.input)).1
        (pyOrS args.model "gemini-1.5-flash")) = .err err)
    (hlist : w.net (listModelsReq k) = .ok ⟨200, lt, some body⟩)
    (hmodels : Json.getD body "models" (.arr []) = some modelsJ)
    (hiter : pyIterate modelsJ = .ok models)
    (hwf : ∀ m ∈ models, wfModel m = true)
    (hfind : models.find? specSuitable = some mdl) :
    (cmd_text w args).trace =
      [genReqV1 k (buildFullPromptCli w.fs
         (if args.input = "-" then w.stdin else args.input)).1
         (pyOrS args.model "gemini-1.5-flash"),
       listModelsReq k,
       genReqV1beta k (buildFullPromptCli w.fs
         (if args.input = "-" then w.stdin else args.input)).1
         (specModelName mdl)] := by
  have hmem : mdl ∈ models := List.mem_of_find?_eq_some hfind
  have hsuit : specSuitable mdl = true := List.find?_some hfind
  have hname : specModelName mdl ≠ "" := specSuitable_name_ne mdl (hwf mdl hmem) hsuit
  have hpick : pickPreferred models = .ok (some (.str (specModelName mdl))) := by
    rw [pickPreferred_eq_find models hwf, hfind]; rfl
  have htr : pyTruthy (Json.str (specModelName mdl)) = true := by
    simp [pyTruthy, bne_iff_ne]; exact hname
  simp only [cmd_text, hkey, hprim, hlist, hmodels, hiter, hpick, htr,
    eq_self_iff_true, if_true, pyStr]
  split <;> rfl

/-- C3 witness: the theorem instantiated on the concrete fallback world,
whose listing returns exactly one suitable model. -/
theorem c3_witness :
    (cmd_text wFallback args0).trace =
      [genReqV1 "K" "P\n\nT" "gemini-1.5-flash",
       listModelsReq "K",
       genReqV1beta "K" "P\n\nT" "models/gemini-1.5-flash"] := by
  have h := c3_fallback_selects_first_suitable_and_retries_once
    wFallback args0 "K" "HTTP 503: boom" "" listBody0 (Json.arr [modelEntry0])
    modelEntry0 [modelEntry0] rfl rfl rfl rfl rfl
    (by intro m hm; rw [List.mem_singleton] at hm; subst hm; rfl) rfl
  exact h

/-- A `cmd_text` run exits 2 exactly when both key variables are unset
or empty. -/
theorem cmd_text_exit2_iff (w : World) (args : Args) :
    (cmd_text w args).exitCode = 2 ↔ ensure_api_key w.fs.env = none := by
  rcases hk : ensure_api_key w.fs.env with _ | k
  · simp [cmd_text, hk]
  · have hP : (cmd_text w args).exitCode = 0 ∨ (cmd_text w args).exitCode = 1 := by
      simp only [cmd_text, hk]
      (repeat' split) <;> simp
    constructor
    · intro h2; rcases hP with h | h <;> omega
    · intro h; exact absurd h (by simp)

/-- A `cmd_text` run exits with code 0, 1 or 2 and nothing else. -/
theorem cmd_text_exit_mem (w : World) (args : Args) :
    (cmd_text w args).exitCode = 0 ∨ (cmd_text w args).exitCode = 1 ∨
      (cmd_text w args).exitCode = 2 := by
  rcases hk : ensure_api_key w.fs.env with _ | k
  · simp [cmd_text, hk]
  · simp only [cmd_text, hk]
    (repeat' split) <;> simp

/-- A `cmd_text` run exits 0 exactly when a summary was produced: some
generateContent request it issued succeeded, and its text is what the
run printed to stdout. -/
theorem cmd_text_exit0_iff (w : World) (args : Args) :
    (cmd_text w args).exitCode = 0 ↔
      ∃ req ∈ (cmd_text w args).trace, req.isPost = true ∧
        callModelWith w.net req = .ok (cmd_text w args).stdout := by
  rcases hk : ensure_api_key w.fs.env with _ | k
  · simp [cmd_text, hk]
  · simp only [cmd_text, hk]
    (repeat' split) <;> simp_all [genReqV1, genReqV1beta, listModelsReq]

/-- A `cmd_text` run exits 1 only after an API/network failure: the
primary generateContent call either raised or returned an error. -/
theorem cmd_text_exit1_primary_failed (w : World) (args : Args)
    (h1 : (cmd_text w args).exitCode = 1) :
    ∃ k msg, ensure_api_key w.fs.env = some k ∧
      (callModelWith w.net (genReqV1 k (buildFullPromptCli w.fs
          (if args.input = "-" then w.stdin else args.input)).1
          (pyOrS args.model "gemini-1.5-flash")) = .crash msg ∨
       callModelWith w.net (genReqV1 k (buildFullPromptCli w.fs
          (if args.input = "-" then w.stdin else args.input)).1
          (pyOrS args.model "gemini-1.5-flash")) = .err msg) := by
  revert h1
  rcases hk : ensure_api_key w.fs.env with _ | k
  · simp [cmd_text, hk]
  · rcases hc : callModelWith w.net (genReqV1 k (buildFullPromptCli w.fs
        (if args.input = "-" then w.stdin else args.input)).1
        (pyOrS args.model "gemini-1.5-flash")) with msg | t | e
    · exact fun _ => ⟨k, msg, rfl, Or.inl hc⟩
    · intro h1
      simp [cmd_text, hk, hc] at h1
    · exact fun _ => ⟨k, e, rfl, Or.inr hc⟩

/-- A `summarize_ai.main` run exits with code 0 or 1 and nothing else. -/
theorem summarizeAi_exit_mem (w : SdkWorld) (p m : String) :
    (summarizeAiMain w p m).exitCode = 0 ∨ (summarizeAiMain w p m).exitCode = 1 := by
  simp only [summarizeAiMain]
  (repeat' split) <;> simp

/-- With provider `openai` and no `OPENAI_API_KEY`, `main` exits 1 (the
`RuntimeError` raised by `summarize_with_openai` is never caught). -/
theorem summarizeAi_openai_missing_key (w : SdkWorld) (p m : String)
    (hp : pyLower (pyOrS p "") = "openai")
    (hke : (lookupStr w.fs.env "OPENAI_API_KEY").getD "" = "") :
    (summarizeAiMain w p m).exitCode = 1 := by
  simp [summarizeAiMain, summarize_with_openai, hp, hke]

/-- With provider `gemini` and neither key variable set, `main` exits 1
(the `RuntimeError` raised by `summarize_with_gemini` is never caught). -/
theorem summarizeAi_gemini_missing_key (w : SdkWorld) (p m : String)
    (hp : pyLower (pyOrS p "") = "gemini")
    (hke : (firstTruthy [lookupStr w.fs.env "GEMINI_API_KEY",
      lookupStr w.fs.env "GOOGLE_API_KEY"]).getD "" = "") :
    (summarizeAiMain w p m).exitCode = 1 := by
  simp [summarizeAiMain, summarize_with_gemini, hp, hke]

/-- C1 (amended): `cmd_text` follows the taxonomy — it exits 2 exactly
when both key variables are unset or empty, exits only 0, 1 or 2, exits
0 exactly when a summary produced by a successful generateContent call
is the printed stdout, and exits 1 only after the primary API call
failed (raised or returned an error).  `summarize_ai.main` exits only 0
or 1 — in particular a missing provider key surfaces as an uncaught
`RuntimeError` with exit code 1, not 2, for both providers. -/
theorem c1_exit_code_taxonomy :
    (∀ (w : World) (args : Args),
      ((cmd_text w args).exitCode = 2 ↔ ensure_api_key w.fs.env = none) ∧
      ((cmd_text w args).exitCode = 0 ∨ (cmd_text w args).exitCode = 1 ∨
        (cmd_text w args).exitCode = 2) ∧
      ((cmd_text w args).exitCode = 0 ↔
        ∃ req ∈ (cmd_text w args).trace, req.isPost = true ∧
          callModelWith w.net req = .ok (cmd_text w args).stdout) ∧
      ((cmd_text w args).exitCode = 1 →
        ∃ k msg, ensure_api_key w.fs.env = some k ∧
          (callModelWith w.net (genReqV1 k (buildFullPromptCli w.fs
              (if args.input = "-" then w.stdin else args.input)).1
              (pyOrS args.model "gemini-1.5-flash")) = .crash msg ∨
           callModelWith w.net (genReqV1 k (buildFullPromptCli w.fs
              (if args.input = "-" then w.stdin else args.input)).1
              (pyOrS args.model "gemini-1.5-flash")) = .err msg))) ∧
    (∀ (w : SdkWorld) (p m : String),
      ((summarizeAiMain w p m).exitCode = 0 ∨ (summarizeAiMain w p m).exitCode = 1) ∧
      (pyLower (pyOrS p "") = "openai" →
        (lookupStr w.fs.env "OPENAI_API_KEY").getD "" = "" →
        (summarizeAiMain w p m).exitCode = 1) ∧
      (pyLower (pyOrS p "") = "gemini" →
        (firstTruthy [lookupStr w.fs.env "GEMINI_API_KEY",
          lookupStr w.fs.env "GOOGLE_API_KEY"]).getD "" = "" →
        (summarizeAiMain w p m).exitCode = 1)) :=
  ⟨fun w args =>
    ⟨cmd_text_exit2_iff w args, cmd_text_exit_mem w args,
     cmd_text_exit0_iff w args, cmd_text_exit1_primary_failed w args⟩,
   fun w p m =>
    ⟨summarizeAi_exit_mem w p m,
     fun hp hke => summarizeAi_openai_missing_key w p m hp hke,
     fun hp hke => summarizeAi_gemini_missing_key w p m hp hke⟩⟩

/-- C1 witness: the theorem instantiated concretely — `cmd_text` exits 2
on the empty environment; `summarize_ai` with provider `openai` and no
key exits 1; the successful fallback run exits 0 with a succeeding
generateContent request whose text is the stdout; and the failing
no-match run exits 1 with a failed primary call. -/
theorem c1_witness :
    (cmd_text wNoKey args0).exitCode = 2 ∧
    (summarizeAiMain wSdkNoKey "openai" "").exitCode = 1 ∧
    (∃ req ∈ (cmd_text wFallback args0).trace, req.isPost = true ∧
      callModelWith wFallback.net req = .ok (cmd_text wFallback args0).stdout) ∧
    (∃ k msg, ensure_api_key wNoMatch.fs.env = some k ∧
      (callModelWith wNoMatch.net (genReqV1 k (buildFullPromptCli wNoMatch.fs
          (if args0.input = "-" then wNoMatch.stdin else args0.input)).1
          (pyOrS args0.model "gemini-1.5-flash")) = .crash msg ∨
       callModelWith wNoMatch.net (genReqV1 k (buildFullPromptCli wNoMatch.fs
          (if args0.input = "-" then wNoMatch.stdin else args0.input)).1
          (pyOrS args0.model "gemini-1.5-flash")) = .err msg)) :=
  ⟨(c1_exit_code_taxonomy.1 wNoKey args0).1.mpr rfl,
   (c1_exit_code_taxonomy.2 wSdkNoKey "openai" "").2.1 rfl rfl,
   (c1_exit_code_taxonomy.1 wFallback args0).2.2.1.mp rfl,
   (c1_exit_code_taxonomy.1 wNoMatch args0).2.2.2 rfl⟩

/-- C1 counterexample: with `provider=openai` and no `OPENAI_API_KEY`,
`summarize_ai.main` exits with code 1 (uncaught `RuntimeError`), not
with code 2 as the claim requires for a missing API key. -/
theorem c1_counterexample_missing_openai_key_exits_one :
    lookupStr wSdkNoKey.fs.env "OPENAI_API_KEY" = none ∧
    (summarizeAiMain wSdkNoKey "openai" "").exitCode = 1 ∧
    (summarizeAiMain wSdkNoKey "openai" "").exitCode ≠ 2 :=
  ⟨rfl, rfl, by decide⟩

/-- C2 (amended): every `cmd_text` run issues at most three network
requests — primary call, model listing, single retry — sequentially,
and every issued request carries the fixed timeout of its kind (60 s
for the generateContent POSTs, 30 s for the listing GET). -/
theorem c2_at_most_three_sequential_calls_fixed_timeouts :
    ∀ (w : World) (args : Args),
      (cmd_text w args).trace.length ≤ 3 ∧
      ((cmd_text w args).trace.all fun r =>
        r.timeoutSec == if r.isPost then 60 else 30) = true := by
  intro w args
  rcases hk : ensure_api_key w.fs.env with _ | k
  · simp [cmd_text, hk]
  · simp only [cmd_text, hk]
    (repeat' split) <;> simp [genReqV1, genReqV1beta, listModelsReq]

/-- C2 counterexample: a run in which the primary call fails and the
fallback succeeds issues three network calls, refuting the two-call
bound. -/
theorem c2_counterexample_three_calls :
    (cmd_text wFallback args0).trace.length = 3 ∧
    ¬((cmd_text wFallback args0).trace.length ≤ 2) :=
  ⟨rfl, by decide⟩

/-- C4 (amended): on a 200 response whose body has the shape
`candidates[0].content.parts`, the call returns the concatenation, in
part order, of the parts' `"text"` fields — with leading and trailing
whitespace stripped (`.strip()` on the joined string); a part without
a `"text"` field contributes the empty string. -/
theorem c4_summary_is_stripped_concatenation
    (net : Request → NetResult) (req : Request) (t : String) (data : Json)
    (ps : List Json) (ts : List String)
    (hnet : net req = .ok ⟨200, t, some data⟩)
    (hparts : extractParts data = some ps)
    (htexts : mapTexts ps = some ts) :
    callModelWith net req = .ok (pyStrip (pyJoin ts)) ∧
    (∀ fs, lookupField fs "text" = none → partText (.obj fs) = some "") ∧
    (∀ fs s, lookupField fs "text" = some (.str s) → partText (.obj fs) = some s) := by
  refine ⟨?_, ?_, ?_⟩
  · simp [callModelWith, hnet, parseGenBody, hparts, htexts]
  · intro fs h; simp [partText, h]
  · intro fs s h; simp [partText, h]

/-- C4 witness: the theorem instantiated on a concrete 200 response with
a single part of text `" a "`. -/
theorem c4_witness : callModelWith netSpaces (genReqV1 "K" "p" "m") = .ok "a" := by
  have h := c4_summary_is_stripped_concatenation netSpaces (genReqV1 "K" "p" "m") ""
    genBodySpaces [Json.obj [("text", Json.str " a ")]] [" a "] rfl rfl rfl
  exact h.1

/-- C4 counterexample: with the single part text `" a "` the extracted
summary is `"a"`, not the plain concatenation `" a "`: the code strips
whitespace, which the claim's equality does not allow. -/
theorem c4_counterexample_strip_changes_concatenation :
    callModelWith netSpaces (genReqV1 "K" "p" "m") = .ok "a" ∧
    pyJoin [" a "] = " a " ∧ (" a " : String) ≠ "a" :=
  ⟨rfl, rfl, by decide⟩

/-- C5: in both scripts, prompt construction gives `SUMMARY_PROMPT_FILE`
highest precedence, then `SUMMARY_PROMPT`, and only when neither yields
a non-empty prompt is a built-in template used; under an override both
builders produce `override ++ "\n\n" ++ text` — the built-in template is
not part of the prompt — and the two scripts agree on it. -/
theorem c5_prompt_override_precedence :
    ∀ (fe : FsEnv) (text : String),
      ((get_summary_prompt fe text).1 =
        match specFilePrompt fe with
        | some c => c ++ "\n\n" ++ text
        | none =>
          match specEnvPrompt fe with
          | some s => s ++ "\n\n" ++ text
          | none => defaultPrompt ++ text) ∧
      ((buildFullPromptCli fe text).1 =
        match specFilePrompt fe with
        | some c => c ++ "\n\n" ++ text
        | none =>
          match specEnvPrompt fe with
          | some s => s ++ "\n\n" ++ text
          | none => stylePreface fe ++ "\n\n" ++ text) ∧
      (((specFilePrompt fe).isSome = true ∨ (specEnvPrompt fe).isSome = true) →
        (buildFullPromptCli fe text).1 = (get_summary_prompt fe text).1) := by
  intro fe text
  rcases hstep : (promptFileStep fe).1 with _ | c
  · by_cases hcp : pyStrip (getenvD fe.env "SUMMARY_PROMPT" "") = "" <;>
      simp [get_summary_prompt, buildFullPromptCli, specFilePrompt, specEnvPrompt,
        stylePreface, hstep, hcp] <;>
      (try (split <;> rfl))
  · by_cases hc : c = ""
    · subst hc
      by_cases hcp : pyStrip (getenvD fe.env "SUMMARY_PROMPT" "") = "" <;>
        simp [get_summary_prompt, buildFullPromptCli, specFilePrompt, specEnvPrompt,
          stylePreface, hstep, hcp] <;>
        (try (split <;> rfl))
    · simp [get_summary_prompt, buildFullPromptCli, specFilePrompt, specEnvPrompt,
        stylePreface, hstep, hc]

/-- C5 witness: with both a readable prompt file and `SUMMARY_PROMPT`
set, both builders produce the file-based prompt. -/
theorem c5_witness :
    (buildFullPromptCli fePrec "T").1 = (get_summary_prompt fePrec "T").1 ∧
    (get_summary_prompt fePrec "T").1 = "F\n\nT" := by
  have h := c5_prompt_override_precedence fePrec "T"
  exact ⟨h.2.2 (Or.inl rfl), h.1⟩

/-- C6: when the primary v1 generateContent call returns a non-200
status, `cmd_text` issues the v1beta model-listing request next rather
than exiting immediately: the trace continues past the primary request
with the listing request. -/
theorem c6_non200_triggers_fallback
    (w : World) (args : Args) (k : String) (resp : HttpResp)
    (hkey : ensure_api_key w.fs.env = some k)
    (hr : w.net (genReqV1 k (buildFullPromptCli w.fs
        (if args.input = "-" then w.stdin else args.input)).1
        (pyOrS args.model "gemini-1.5-flash")) = .ok resp)
    (hs : resp.status ≠ 200) :
    ∃ rest, (cmd_text w args).trace =
      genReqV1 k (buildFullPromptCli w.fs
        (if args.input = "-" then w.stdin else args.input)).1
        (pyOrS args.model "gemini-1.5-flash") :: listModelsReq k :: rest := by
  have hcall : callModelWith w.net
      (genReqV1 k (buildFullPromptCli w.fs
        (if args.input = "-" then w.stdin else args.input)).1
        (pyOrS args.model "gemini-1.5-flash")) =
      .err ("HTTP " ++ Nat.repr resp.status ++ ": " ++ pySlice200 resp.text) := by
    simp [callModelWith, hr, hs]
  simp only [cmd_text, hkey, hcall]
  (repeat' split) <;> exact ⟨_, rfl⟩

/-- C6 witness: the theorem instantiated on the concrete fallback world
whose primary call returns HTTP 503. -/
theorem c6_witness :
    ∃ rest, (cmd_text wFallback args0).trace =
      genReqV1 "K" "P\n\nT" "gemini-1.5-flash" :: listModelsReq "K" :: rest := by
  have h := c6_non200_triggers_fallback wFallback args0 "K" ⟨503, "boom", none⟩
    rfl rfl (by decide)
  exact h

/-- C7: when model discovery returns a 200 body whose models list has no
entry selected by the loop (empty list included), `cmd_text` prints the
primary error joined with the no-suitable-model message on stderr and
returns exit code 1, without issuing a retry. -/
theorem c7_no_suitable_model_reports_and_exits_one
    (w : World) (args : Args) (k err lt : String) (body modelsJ : Json)
    (models : List Json)
    (hkey : ensure_api_key w.fs.env = some k)
    (hprim : callModelWith w.net
      (genReqV1 k (buildFullPromptCli w.fs
        (if args.input = "-" then w.stdin else args.input)).1
        (pyOrS args.model "gemini-1.5-flash")) = .err err)
    (hlist : w.net (listModelsReq k) = .ok ⟨200, lt, some body⟩)
    (hmodels : Json.getD body "models" (.arr []) = some modelsJ)
    (hiter : pyIterate modelsJ = .ok models)
    (hpick : pickPreferred models = .ok none) :
    cmd_text w args =
      ⟨1, "",
       (buildFullPromptCli w.fs (if args.input = "-" then w.stdin else args.input)).2 ++
         ["Gemini REST call failed: " ++ err ++ " | no suitable model found"],
       [genReqV1 k (buildFullPromptCli w.fs
          (if args.input = "-" then w.stdin else args.input)).1
          (pyOrS args.model "gemini-1.5-flash"),
        listModelsReq k], false⟩ := by
  simp only [cmd_text, hkey, hprim, hlist, hmodels, hiter, hpick,
    eq_self_iff_true, if_true]

/-- C7 witness: the theorem instantiated on a world whose listing
returns an empty models list. -/
theorem c7_witness :
    cmd_text wNoMatch args0 =
      ⟨1, "",
       ["Gemini REST call failed: HTTP 503: boom | no suitable model found"],
       [genReqV1 "K" "P\n\nT" "gemini-1.5-flash", listModelsReq "K"], false⟩ := by
  have h := c7_no_suitable_model_reports_and_exits_one wNoMatch args0 "K"
    "HTTP 503: boom" "" (Json.obj [("models", Json.arr [])]) (Json.arr []) []
    rfl rfl rfl rfl rfl rfl
  exact h

/-- C8 (amended): every failure that determines the run's outcome is
surfaced — a `cmd_text` run that printed nothing on stderr exited with
code 0; equivalently, every non-zero exit carries a stderr message.
(The exception forced by the counterexample: a primary-call failure that
the successful fallback retry recovers is not reported.) -/
theorem c8_unrecovered_failures_are_surfaced :
    ∀ (w : World) (args : Args),
      (cmd_text w args).stderr = [] → (cmd_text w args).exitCode = 0 := by
  intro w args h
  revert h
  rcases hk : ensure_api_key w.fs.env with _ | k
  · simp [cmd_text, hk]
  · simp only [cmd_text, hk]
    (repeat' split) <;> simp

/-- C8 witness: the successful fallback run printed nothing on stderr
and exited 0. -/
theorem c8_witness : (cmd_text wFallback args0).exitCode = 0 :=
  c8_unrecovered_failures_are_surfaced wFallback args0 rfl

/-- C8 counterexample: the primary call fails with HTTP 503, yet the run
exits 0 with an empty stderr — the failure was recovered silently by the
fallback, refuting the claim that no execution path recovers from a
failure silently. -/
theorem c8_counterexample_silent_recovery :
    (cmd_text wFallback args0).exitCode = 0 ∧
    (cmd_text wFallback args0).stderr = [] ∧
    wFallback.net (genReqV1 "K" "P\n\nT" "gemini-1.5-flash") =
      .ok ⟨503, "boom", none⟩ :=
  ⟨rfl, rfl, rfl⟩

/-- C9 (amended): when the lowercased provider argument is `"none"`,
`"off"` or `"disabled"`, `main` prints the stdin text followed by the
newline that `print` appends, makes no provider call, and returns 0. -/
theorem c9_disabled_provider_prints_text_with_newline
    (w : SdkWorld) (p m : String)
    (h : pyLower (pyOrS p "") = "none" ∨ pyLower (pyOrS p "") = "off" ∨
      pyLower (pyOrS p "") = "disabled") :
    summarizeAiMain w p m = ⟨0, w.stdin ++ "\n", [], []⟩ := by
  rcases h with h | h | h <;> simp [summarizeAiMain, h]

/-- C9 witness: the theorem instantiated at provider `"off"`. -/
theorem c9_witness : summarizeAiMain wSdkNoKey "off" "" = ⟨0, "T\n", [], []⟩ :=
  c9_disabled_provider_prints_text_with_newline wSdkNoKey "off" ""
    (Or.inr (Or.inl rfl))

/-- C9 counterexample: with stdin `"T"` the run writes `"T\n"` — `print`
appends a newline, so the output is not the identity on the input. -/
theorem c9_counterexample_identity_fails :
    wSdkNoKey.stdin = "T" ∧
    (summarizeAiMain wSdkNoKey "none" "").stdout = "T\n" ∧
    (summarizeAiMain wSdkNoKey "none" "").stdout ≠ wSdkNoKey.stdin :=
  ⟨rfl, rfl, by decide⟩

/-- C10: for every Gemini SDK response that is falsy or whose `text`
attribute is missing or empty, `summarize_with_gemini` raises
`RuntimeError("Gemini returned empty response")`; and whenever it does
return a summary, the response was truthy with a non-empty `text`, and
the summary is that text stripped. -/
theorem c10_gemini_empty_response_raises
    (w : SdkWorld) (text model : String) (resp : GemResponse)
    (hkey : (firstTruthy [lookupStr w.fs.env "GEMINI_API_KEY",
      lookupStr w.fs.env "GOOGLE_API_KEY"]).getD "" ≠ "")
    (hres : w.geminiResult (pyOrS model "gemini-1.5-flash")
      (get_summary_prompt w.fs text).1 = .ok resp) :
    ((resp.truthy = false ∨ resp.text = none ∨ resp.text = some "") →
      (summarize_with_gemini w text model).1 = .error "Gemini returned empty response") ∧
    (∀ s, (summarize_with_gemini w text model).1 = .ok s →
      resp.truthy = true ∧ ∃ t, resp.text = some t ∧ t ≠ "" ∧ s = pyStrip t) := by
  constructor
  · intro hbad
    have hcond : resp.truthy = false ∨ resp.text.getD "" = "" := by
      rcases hbad with h | h | h
      · exact Or.inl h
      · exact Or.inr (by simp [h])
      · exact Or.inr (by simp [h])
    simp only [summarize_with_gemini, hres]
    rw [if_neg hkey, if_pos hcond]
  · intro s hs
    simp only [summarize_with_gemini, hres] at hs
    rw [if_neg hkey] at hs
    by_cases hcond : resp.truthy = false ∨ resp.text.getD "" = ""
    · rw [if_pos hcond] at hs
      exact absurd hs (by simp)
    · rw [if_neg hcond] at hs
      push_neg at hcond
      obtain ⟨ht, he⟩ := hcond
      refine ⟨by simpa using ht, ?_⟩
      rcases hx : resp.text with _ | t
      · rw [hx] at he; simp at he
      · refine ⟨t, rfl, ?_, ?_⟩
        · rw [hx] at he; simpa using he
        · have : s = pyStrip (resp.text.getD "") := by
            simpa using hs.symm
          rw [this, hx]
          rfl

/-- C10 witness: a truthy response with `text = ""` makes the function
raise the empty-response error. -/
theorem c10_witness :
    (summarize_with_gemini wSdkGemEmpty "T" "").1 =
      .error "Gemini returned empty response" := by
  have h := c10_gemini_empty_response_raises wSdkGemEmpty "T" "" ⟨true, some ""⟩
    (by decide) rfl
  exact h.1 (Or.inr (Or.inr rfl))
